import Mathlib

/-!
Verification of the Openrouter-alternative python backend
(src/python-backend/config.py, client.py, main.py).

The python code is shallowly embedded: the model registry constants are
transcribed from config.py, the request/stream translators from client.py,
and the chat-completions endpoint control flow from main.py.  Fresh UUID
generation is modelled by an explicit id supply `ids : Nat → String`
(ids 0 is the evaluation-session id, ids (i+1) the id of input message i,
ids (N+1) the appended assistant-turn id, matching the generation order in
the python source); wall-clock time is an explicit `now : Nat` parameter;
the outbound HTTP call is an explicit transport parameter returning either
a failure message (a raised exception rendered by str) or the raw result.
-/

namespace OpenRouterAlt

/-! ### Model registry (config.py, `Config.supported_models` / `Config.model_mapping`) -/

/-- The fixed supported-model list from config.py. -/
def supported_models : List String :=
  [ "gpt-4o-latest"
  , "gpt-4.1-2025-04-14"
  , "gpt-4.1-mini-2025-04-14"
  , "claude-3-5-haiku-20241022"
  , "claude-3-5-sonnet-20241022"
  , "claude-3-7-sonnet-20250219"
  , "claude-opus-4-20250514"
  , "claude-sonnet-4-20250514"
  , "gemini-2.0-flash-001"
  , "gemini-2.5-flash-preview-04-17"
  , "gemini-2.5-pro-preview-05-06"
  , "llama-3.3-70b-instruct"
  , "llama-4-maverick-03-26-experimental"
  , "deepseek-v3-0324"
  , "grok-3-mini-beta"
  , "grok-3-preview-02-24"
  , "o3-2025-04-16"
  , "o3-mini"
  , "o4-mini-2025-04-16"
  , "qwen-max-2025-01-25"
  , "dall-e-3"
  , "gpt-image-1"
  , "gemini-2.0-flash-preview-image-generation"
  , "imagen-3.0-generate-002"
  , "flux-1.1-pro"
  , "ideogram-v2"
  , "photon"
  , "recraft-v3" ]

/-- The fixed alias table from config.py (`Config.model_mapping`). -/
def model_mapping : List (String × String) :=
  [ ("gpt-4", "gpt-4o-latest")
  , ("gpt-4-turbo", "gpt-4.1-2025-04-14")
  , ("gpt-3.5-turbo", "gpt-4.1-mini-2025-04-14")
  , ("claude-3-sonnet", "claude-3-5-sonnet-20241022")
  , ("claude-3-haiku", "claude-3-5-haiku-20241022")
  , ("gemini-pro", "gemini-2.0-flash-001")
  , ("llama-3", "llama-3.3-70b-instruct") ]

/-- config.py `Config.get_model_id`: `self.model_mapping.get(model_name, model_name)`. -/
def get_model_id (model_name : String) : String :=
  (model_mapping.lookup model_name).getD model_name

/-- config.py `Config.is_model_supported`.  The argument is optional because
the callers pass `request_body.get("model")`, which is `None` when the key is
absent; `model_mapping.get(None, None)` is `None` and `None` is never a member
of the (string) supported-model list, so the `none` case is `false`. -/
def is_model_supported : Option String → Bool
  | none => false
  | some m => supported_models.contains (get_model_id m)

/-- Rendering of the optional model name inside a python f-string
(`f"Unsupported model: {model}"`): `None` prints as "None". -/
def optModelStr : Option String → String
  | none => "None"
  | some m => m

/-! ### Inbound request data model (JSON body of POST /v1/chat/completions) -/

/-- One element of a multimodal content array.  `textP t` is a dict whose
"type" key equals "text", with `t` its optional "text" entry; `nonText`
covers every other element (a dict with another or missing "type", or a
non-dict element). -/
inductive ContentPart
  | textP (text : Option String)
  | nonText
  deriving DecidableEq

/-- The "content" entry of an inbound message: a plain string or an array of
typed parts. -/
inductive MsgContent
  | str (s : String)
  | parts (ps : List ContentPart)
  deriving DecidableEq

/-- One inbound OpenAI-style message (role and content entries). -/
structure Message where
  role : String
  content : MsgContent
  deriving DecidableEq

/-- The parsed JSON body of a chat-completions request.  `model = none`
models an absent "model" key; `messages = none` models an absent or
non-list "messages" entry (main.py rejects both with 400 before the client
runs); `stream` is `body.get("stream", False)`. -/
structure RequestBody where
  model : Option String
  messages : Option (List Message)
  stream : Bool
  deriving DecidableEq

/-! ### Arena request payload (client.py `_convert_to_arena_format`) -/

/-- One conversation turn of the Arena payload, with exactly the fields
built in client.py. -/
structure ArenaMessage where
  id : String
  role : String
  content : String
  experimental_attachments : List String
  parentMessageIds : List String
  participantPosition : String
  modelId : Option String
  evaluationSessionId : String
  status : String
  failureReason : Option String
  deriving DecidableEq

/-- The Arena evaluation-session payload built in client.py. -/
structure ArenaRequest where
  id : String
  mode : String
  modelAId : String
  userMessageId : String
  modelAMessageId : String
  messages : List ArenaMessage
  modality : String
  deriving DecidableEq

/-- Text contribution of one content part: parts tagged "text" contribute
`part.get("text", "")`, every other part contributes nothing. -/
def partTextOf : ContentPart → Option String
  | .textP t => some (t.getD "")
  | .nonText => none

/-- Content flattening in `_convert_to_arena_format`: a string is used
as is; an array keeps only the text parts, joined with newline. -/
def flattenContent : MsgContent → String
  | .str s => s
  | .parts ps => String.intercalate "\n" (ps.filterMap partTextOf)

/-- The turn built for input message `msg` at zero-based index `i` inside
the conversion loop of `_convert_to_arena_format`.  `message_ids[i-1]`
is `ids i` because message j receives id `ids (j+1)`. -/
def mkArenaTurn (ids : Nat → String) (model_id evaluation_id : String)
    (i : Nat) (msg : Message) : ArenaMessage :=
  { id := ids (i + 1)
  , role := if msg.role = "system" then "user" else msg.role
  , content := flattenContent msg.content
  , experimental_attachments := []
  , parentMessageIds := if 0 < i then [ids i] else []
  , participantPosition := "a"
  , modelId := if msg.role = "assistant" then some model_id else none
  , evaluationSessionId := evaluation_id
  , status := "pending"
  , failureReason := none }

/-- The `for i, msg in enumerate(...)` loop of `_convert_to_arena_format`,
carrying the running index. -/
def buildArenaTurns (ids : Nat → String) (model_id evaluation_id : String) :
    Nat → List Message → List ArenaMessage
  | _, [] => []
  | i, msg :: rest =>
      mkArenaTurn ids model_id evaluation_id i msg ::
        buildArenaTurns ids model_id evaluation_id (i + 1) rest

/-- client.py `_convert_to_arena_format`.  `messages` is
`openai_request.get("messages", [])` already parsed, `model` the (present)
"model" entry, `modality` the keyword argument (default "chat" at the
chat call sites, "image" at the image call site). -/
def _convert_to_arena_format (ids : Nat → String) (model : String)
    (messages : List Message) (modality : String) : ArenaRequest :=
  let evaluation_id := ids 0
  let model_id := get_model_id model
  let assistant_message_id := ids (messages.length + 1)
  let arena_messages := buildArenaTurns ids model_id evaluation_id 0 messages
  let assistant_turn : ArenaMessage :=
    { id := assistant_message_id
    , role := "assistant"
    , content := ""
    , experimental_attachments := []
    , parentMessageIds :=
        if 0 < messages.length then [ids messages.length] else []
    , participantPosition := "a"
    , modelId := some model_id
    , evaluationSessionId := evaluation_id
    , status := "pending"
    , failureReason := none }
  { id := evaluation_id
  , mode := "direct"
  , modelAId := model_id
  , userMessageId :=
      if 0 < messages.length then ids messages.length else assistant_message_id
  , modelAMessageId := assistant_message_id
  , messages := arena_messages ++ [assistant_turn]
  , modality := modality }

/-! ### Python string primitives used by the stream translator

Python strings are sequences of code points; the helpers below operate on
the character list of a Lean `String`, matching `str.startswith`,
`str.endswith`, slicing `s[n:]`, and `str.split(sep, 1)`. -/

/-- `s.startswith(p)`. -/
def pyStartsWith (s p : String) : Bool :=
  s.data.take p.data.length == p.data

/-- `s.endswith(p)`. -/
def pyEndsWith (s p : String) : Bool :=
  s.data.drop (s.data.length - p.data.length) == p.data

/-- `s[n:]` (slicing by code points). -/
def pyDrop (s : String) (n : Nat) : String :=
  String.mk (s.data.drop n)

/-- `s.split(":", 1)` combined with the preceding `":" in s` test:
`none` when the string holds no colon, otherwise the part before the
first colon and the rest. -/
def splitAtColon : List Char → Option (List Char × List Char)
  | [] => none
  | c :: rest =>
      if c = ':' then some ([], rest)
      else
        match splitAtColon rest with
        | none => none
        | some (l, r) => some (c :: l, r)

/-! ### json.loads on string literals (client.py uses it to un-escape
`a0`-payload bodies wrapped in double quotes) -/

/-- Hexadecimal digit value. -/
def hexDigitVal (c : Char) : Option Nat :=
  if '0' ≤ c ∧ c ≤ '9' then some (c.toNat - 48)
  else if 'a' ≤ c ∧ c ≤ 'f' then some (c.toNat - 87)
  else if 'A' ≤ c ∧ c ≤ 'F' then some (c.toNat - 55)
  else none

/-- Value of a four-digit hexadecimal escape. -/
def hex4 (a b c d : Char) : Option Nat :=
  match hexDigitVal a, hexDigitVal b, hexDigitVal c, hexDigitVal d with
  | some x, some y, some z, some w => some (((x * 16 + y) * 16 + z) * 16 + w)
  | _, _, _, _ => none

/-- JSON whitespace accepted by json.loads after the closing quote. -/
def isJsonWs (c : Char) : Bool :=
  c = ' ' || c = '\t' || c = '\n' || c = '\r'

/-- Two-character escapes accepted inside a JSON string literal. -/
def decodeEscape (c : Char) : Option Char :=
  if c = '"' then some '"'
  else if c = '\\' then some '\\'
  else if c = '/' then some '/'
  else if c = 'b' then some (Char.ofNat 8)
  else if c = 'f' then some (Char.ofNat 12)
  else if c = 'n' then some '\n'
  else if c = 'r' then some '\r'
  else if c = 't' then some '\t'
  else none

/-- Token of a lexed JSON string body: a decoded character, or the code
unit of a `\uXXXX` escape (kept numeric so surrogate pairs can be
combined afterwards). -/
inductive JTok
  | ch (c : Char)
  | uesc (n : Nat)
  deriving DecidableEq

/-- Lex the body of a JSON string literal (everything after the opening
quote).  Fails, as json.loads does, on an unterminated literal, an unknown
escape, a raw control character, or trailing non-whitespace after the
closing quote. -/
def lexJsonString : List Char → Option (List JTok)
  | [] => none
  | '"' :: rest => if rest.all isJsonWs then some [] else none
  | '\\' :: 'u' :: a :: b :: c :: d :: rest =>
      match hex4 a b c d, lexJsonString rest with
      | some n, some ts => some (.uesc n :: ts)
      | _, _ => none
  | '\\' :: c :: rest =>
      match decodeEscape c, lexJsonString rest with
      | some e, some ts => some (.ch e :: ts)
      | _, _ => none
  | ['\\'] => none
  | c :: rest =>
      if c.toNat < 32 then none
      else
        match lexJsonString rest with
        | some ts => some (.ch c :: ts)
        | none => none

/-- High-surrogate test for a `\uXXXX` value. -/
def isHighSurr (n : Nat) : Bool := 0xD800 ≤ n && n ≤ 0xDBFF

/-- Low-surrogate test for a `\uXXXX` value. -/
def isLowSurr (n : Nat) : Bool := 0xDC00 ≤ n && n ≤ 0xDFFF

/-- Code point of a surrogate pair. -/
def surrPair (n m : Nat) : Nat :=
  0x10000 + (n - 0xD800) * 0x400 + (m - 0xDC00)

/-- Combine adjacent `\uXXXX` escapes forming a surrogate pair into one
code point; the first argument is a pending high surrogate awaiting its
partner.  A lone surrogate (unrepresentable as a Lean scalar value) is
mapped through `Char.ofNat`, which falls back to the null character. -/
def combineSurrAux : Option Nat → List JTok → List Char
  | none, [] => []
  | some n, [] => [Char.ofNat n]
  | none, .ch c :: rest => c :: combineSurrAux none rest
  | none, .uesc n :: rest =>
      if isHighSurr n then combineSurrAux (some n) rest
      else Char.ofNat n :: combineSurrAux none rest
  | some n, .ch c :: rest => Char.ofNat n :: c :: combineSurrAux none rest
  | some n, .uesc m :: rest =>
      if isLowSurr m then Char.ofNat (surrPair n m) :: combineSurrAux none rest
      else if isHighSurr m then Char.ofNat n :: combineSurrAux (some m) rest
      else Char.ofNat n :: Char.ofNat m :: combineSurrAux none rest

/-- Surrogate-pair combination over a whole token list. -/
def combineSurrogates (ts : List JTok) : List Char :=
  combineSurrAux none ts

/-- json.loads specialised to a double-quoted string literal (the only
shape on which client.py invokes it); `none` models the raised
json.JSONDecodeError. -/
def json_loads_string (s : String) : Option String :=
  match s.data with
  | '"' :: rest =>
      match lexJsonString rest with
      | some ts => some (String.mk (combineSurrogates ts))
      | none => none
  | _ => none

/-! ### OpenAI streaming chunks and the stream translator (client.py) -/

/-- The `delta` object of a streaming chunk: `{content, role}` for text
chunks, `{}` (both fields absent) for terminal chunks. -/
structure Delta where
  content : Option String
  role : Option String
  deriving DecidableEq

/-- One choice of a streaming chunk. -/
structure ChunkChoice where
  index : Nat
  delta : Delta
  finish_reason : Option String
  deriving DecidableEq

/-- One OpenAI streaming chunk as built in client.py. -/
structure Chunk where
  id : String
  object : String
  created : Nat
  model : String
  choices : List ChunkChoice
  deriving DecidableEq

/-- One unit of the outbound SSE sequence: a serialized chunk
(`data: <json.dumps(chunk)>\n\n`) or the literal terminator
`data: [DONE]\n\n`. -/
inductive SSEOut
  | chunk (c : Chunk)
  | done
  deriving DecidableEq

/-- client.py `_process_arena_sse_data`: classify one payload (the line
with its `data: ` prefix removed) and build the matching chunk, or `none`
when the payload is ignored.  A failing json.loads on a quoted `a0` body
raises, the surrounding `except` returns `None`: also `none` here. -/
def _process_arena_sse_data (data response_id model : String) (now : Nat) :
    Option Chunk :=
  match splitAtColon data.data with
  | none => none
  | some (pfxChars, contentChars) =>
      let pfx := String.mk pfxChars
      let content := String.mk contentChars
      if pfx = "a0" then
        let decoded :=
          if pyStartsWith content "\"" && pyEndsWith content "\"" then
            json_loads_string content
          else some content
        match decoded with
        | none => none
        | some text =>
            some
              { id := response_id
              , object := "chat.completion.chunk"
              , created := now
              , model := model
              , choices :=
                  [ { index := 0
                    , delta := { content := some text, role := some "assistant" }
                    , finish_reason := none } ] }
      else if pfx = "ae" ∨ pfx = "ad" then
        some
          { id := response_id
          , object := "chat.completion.chunk"
          , created := now
          , model := model
          , choices :=
              [ { index := 0
                , delta := { content := none, role := none }
                , finish_reason := some "stop" } ] }
      else none

/-- The line loop of client.py `_stream_arena_request`: lines not starting
with `data: ` are skipped, a `[DONE]` payload emits the terminator and
breaks, any other payload is classified by `_process_arena_sse_data` and
emitted only when a chunk is produced. -/
def streamArenaLines (response_id model : String) (now : Nat) :
    List String → List SSEOut
  | [] => []
  | line :: rest =>
      if pyStartsWith line "data: " then
        let data := pyDrop line 6
        if data = "[DONE]" then [SSEOut.done]
        else
          match _process_arena_sse_data data response_id model now with
          | some c => SSEOut.chunk c :: streamArenaLines response_id model now rest
          | none => streamArenaLines response_id model now rest
      else streamArenaLines response_id model now rest

/-- client.py `_stream_arena_request`: the outbound POST either fails
(`raise_for_status` or a connectivity error raises, carrying message `e`)
or yields the body lines, which the loop above translates.  The response
id is `f"chatcmpl-{int(time.time())}"` and the model is
`arena_request.get("modelAId", "unknown")` (always present as built). -/
def _stream_arena_request (arena_request : ArenaRequest) (now : Nat)
    (transport : ArenaRequest → Except String (List String)) :
    Except String (List SSEOut) :=
  match transport arena_request with
  | .error e => .error e
  | .ok lines =>
      .ok (streamArenaLines ("chatcmpl-" ++ toString now) arena_request.modelAId
            now lines)

/-- client.py `_create_error_chunk`. -/
def _create_error_chunk (error_message : String) (now : Nat) : Chunk :=
  { id := "chatcmpl-" ++ toString now
  , object := "chat.completion.chunk"
  , created := now
  , model := "unknown"
  , choices :=
      [ { index := 0
        , delta :=
            { content := some ("Error: " ++ error_message)
            , role := some "assistant" }
        , finish_reason := some "stop" } ] }

/-- client.py `stream_chat_completion`.  The model is validated first
(`ValueError(f"Unsupported model: {model}")` when unsupported), then the
request is converted and streamed; any raised exception is caught and
turned into one synthetic error chunk followed by the `[DONE]` terminator.
The second component records whether the outbound provider call was
issued. -/
def stream_chat_completion (body : RequestBody) (ids : Nat → String)
    (now : Nat) (transport : ArenaRequest → Except String (List String)) :
    List SSEOut × Bool :=
  match body.model with
  | none =>
      ([ SSEOut.chunk (_create_error_chunk "Unsupported model: None" now)
       , SSEOut.done ], false)
  | some m =>
      if is_model_supported (some m) then
        let arena_request :=
          _convert_to_arena_format ids m (body.messages.getD []) "chat"
        match _stream_arena_request arena_request now transport with
        | .error e =>
            ([SSEOut.chunk (_create_error_chunk e now), SSEOut.done], true)
        | .ok outs => (outs, true)
      else
        ([ SSEOut.chunk
             (_create_error_chunk ("Unsupported model: " ++ m) now)
         , SSEOut.done ], false)

/-! ### Unary response translation (client.py) -/

/-- client.py `_estimate_tokens`: `max(1, len(text) // 4)`. -/
def _estimate_tokens (text : String) : Nat :=
  max 1 (text.length / 4)

/-- The provider JSON body as read by `_convert_to_openai_format`: only
its optional "content" entry is consulted. -/
structure ArenaResponse where
  content : Option String
  deriving DecidableEq

/-- Usage block of a unary completion. -/
structure UsageBlock where
  prompt_tokens : Nat
  completion_tokens : Nat
  total_tokens : Nat
  deriving DecidableEq

/-- Message of a unary completion choice. -/
structure RespMessage where
  role : String
  content : String
  deriving DecidableEq

/-- One choice of a unary completion. -/
structure RespChoice where
  index : Nat
  message : RespMessage
  finish_reason : Option String
  deriving DecidableEq

/-- A unary OpenAI completion object. -/
structure OpenAIResponse where
  id : String
  object : String
  created : Nat
  model : String
  choices : List RespChoice
  usage : UsageBlock
  deriving DecidableEq

/-- client.py `_convert_to_openai_format`.  `prompt_text` stands for
`str(original_request.get("messages", []))`, the python textual rendering
of the raw message list, which the embedding takes as an input because it
depends on the unparsed JSON dictionaries. -/
def _convert_to_openai_format (arena_response : ArenaResponse)
    (original_model : Option String) (prompt_text : String) (now : Nat) :
    OpenAIResponse :=
  let content := arena_response.content.getD ""
  let pt := _estimate_tokens prompt_text
  let ct := _estimate_tokens content
  { id := "chatcmpl-" ++ toString now
  , object := "chat.completion"
  , created := now
  , model := original_model.getD "unknown"
  , choices :=
      [ { index := 0
        , message := { role := "assistant", content := content }
        , finish_reason := some "stop" } ]
  , usage :=
      { prompt_tokens := pt
      , completion_tokens := ct
      , total_tokens := pt + ct } }

/-- client.py `chat_completion`: validate the model (raising `ValueError`
when unsupported), convert, call the provider (`_make_arena_request`,
whose failure propagates), translate the response.  `Except.error`
carries the raised exception message; the second component records
whether `_make_arena_request` was invoked. -/
def chat_completion (body : RequestBody) (ids : Nat → String) (now : Nat)
    (transport : ArenaRequest → Except String ArenaResponse)
    (prompt_text : String) : Except String OpenAIResponse × Bool :=
  match body.model with
  | none => (.error "Unsupported model: None", false)
  | some m =>
      if is_model_supported (some m) then
        let arena_request :=
          _convert_to_arena_format ids m (body.messages.getD []) "chat"
        match transport arena_request with
        | .error e => (.error e, true)
        | .ok resp =>
            (.ok (_convert_to_openai_format resp (some m) prompt_text now), true)
      else (.error ("Unsupported model: " ++ m), false)

/-! ### The chat-completions endpoint (main.py `chat_completions`) -/

/-- A structured `{error: {message, type, code}}` envelope. -/
structure ErrorEnvelope where
  message : String
  type : String
  code : String
  deriving DecidableEq

/-- The 400 envelope for a missing "model" field. -/
def missingModelError : ErrorEnvelope :=
  { message := "Missing required field: model"
  , type := "invalid_request_error"
  , code := "missing_model" }

/-- The 400 envelope for a missing or non-list "messages" field. -/
def invalidMessagesError : ErrorEnvelope :=
  { message := "Missing or invalid required field: messages"
  , type := "invalid_request_error"
  , code := "invalid_messages" }

/-- The generic 500 envelope of the catch-all handler in main.py. -/
def internalServerError : ErrorEnvelope :=
  { message := "Internal server error"
  , type := "server_error"
  , code := "internal_error" }

/-- Outcome of the endpoint: a 200 JSON completion, an error status with
its envelope, or a 200 streaming response carrying the SSE sequence. -/
inductive HandlerResponse
  | jsonOk (resp : OpenAIResponse)
  | jsonError (status : Nat) (error : ErrorEnvelope)
  | sse (events : List SSEOut)
  deriving DecidableEq

/-- Endpoint outcome plus whether an outbound provider call was issued
while serving the request. -/
structure HandlerOutcome where
  response : HandlerResponse
  providerCalled : Bool
  deriving DecidableEq

/-- HTTP status of a handler response (a StreamingResponse commits to
200 before its generator runs). -/
def responseStatus : HandlerResponse → Nat
  | .jsonOk _ => 200
  | .jsonError s _ => s
  | .sse _ => 200

/-- A response whose status code lies in the 4xx range. -/
def is4xxResponse (r : HandlerResponse) : Prop :=
  400 ≤ responseStatus r ∧ responseStatus r < 500

instance (r : HandlerResponse) : Decidable (is4xxResponse r) := by
  unfold is4xxResponse; infer_instance

/-- main.py `chat_completions`: reject a missing "model" key with 400,
a missing or non-list "messages" with 400; stream via
`stream_chat_completion` when `stream` is truthy; otherwise run the unary
`chat_completion`, whose raised `ValueError` or transport exception is
caught by the generic handler and mapped to a 500 envelope. -/
def chat_completions (body : RequestBody) (ids : Nat → String) (now : Nat)
    (unary : ArenaRequest → Except String ArenaResponse)
    (streamTr : ArenaRequest → Except String (List String))
    (prompt_text : String) : HandlerOutcome :=
  if body.model = none then
    { response := .jsonError 400 missingModelError, providerCalled := false }
  else if body.messages = none then
    { response := .jsonError 400 invalidMessagesError, providerCalled := false }
  else if body.stream then
    let (events, called) := stream_chat_completion body ids now streamTr
    { response := .sse events, providerCalled := called }
  else
    match chat_completion body ids now unary prompt_text with
    | (.ok resp, called) =>
        { response := .jsonOk resp, providerCalled := called }
    | (.error _, called) =>
        { response := .jsonError 500 internalServerError
        , providerCalled := called }

/-! ### Structural lemmas about the request translator -/

theorem length_buildArenaTurns (ids : Nat → String) (mid eid : String)
    (msgs : List Message) : ∀ i : Nat,
    (buildArenaTurns ids mid eid i msgs).length = msgs.length := by
  induction msgs with
  | nil => intro i; rfl
  | cons m rest ih => intro i; simp [buildArenaTurns, ih]

theorem getElem?_buildArenaTurns (ids : Nat → String) (mid eid : String)
    (msgs : List Message) : ∀ i j : Nat,
    (buildArenaTurns ids mid eid i msgs)[j]? =
      (msgs[j]?).map (fun m => mkArenaTurn ids mid eid (i + j) m) := by
  induction msgs with
  | nil => intro i j; simp [buildArenaTurns]
  | cons m rest ih =>
      intro i j
      cases j with
      | zero => simp [buildArenaTurns]
      | succ j' =>
          simp only [buildArenaTurns, List.getElem?_cons_succ, ih (i + 1) j']
          have : i + 1 + j' = i + (j' + 1) := by omega
          rw [this]

/-- The turn list of a translated request: one turn per input message at
its index, the appended assistant turn at index `msgs.length`. -/
theorem convert_messages_getElem?_lt (ids : Nat → String)
    (model modality : String) (msgs : List Message) (i : Nat)
    (hi : i < msgs.length) :
    (_convert_to_arena_format ids model msgs modality).messages[i]? =
      (msgs[i]?).map
        (fun m => mkArenaTurn ids (get_model_id model) (ids 0) i m) := by
  unfold _convert_to_arena_format
  rw [List.getElem?_append_left
      (by rw [length_buildArenaTurns]; exact hi)]
  simpa using getElem?_buildArenaTurns ids (get_model_id model) (ids 0) msgs 0 i

theorem convert_messages_getElem?_last (ids : Nat → String)
    (model modality : String) (msgs : List Message) :
    (_convert_to_arena_format ids model msgs modality).messages[msgs.length]? =
      some
        { id := ids (msgs.length + 1)
        , role := "assistant"
        , content := ""
        , experimental_attachments := []
        , parentMessageIds :=
            if 0 < msgs.length then [ids msgs.length] else []
        , participantPosition := "a"
        , modelId := some (get_model_id model)
        , evaluationSessionId := ids 0
        , status := "pending"
        , failureReason := none } := by
  unfold _convert_to_arena_format
  have hB := length_buildArenaTurns ids (get_model_id model) (ids 0) msgs 0
  rw [← hB]
  exact List.getElem?_concat_length _ _

/-- Claim C2: for every input message list of length N ≥ 1, the translator
produces exactly N+1 turns, and the (N+1)-th turn has role assistant,
empty string content, and a parent list equal to the singleton holding the
id of turn N. -/
theorem claim2_turns (ids : Nat → String) (model modality : String)
    (msgs : List Message) (h : 1 ≤ msgs.length) :
    (_convert_to_arena_format ids model msgs modality).messages.length =
        msgs.length + 1 ∧
    ∃ t p,
      (_convert_to_arena_format ids model msgs modality).messages[msgs.length]?
          = some t ∧
      (_convert_to_arena_format ids model msgs modality).messages[msgs.length - 1]?
          = some p ∧
      t.role = "assistant" ∧ t.content = "" ∧ t.parentMessageIds = [p.id] := by
  have hB := length_buildArenaTurns ids (get_model_id model) (ids 0) msgs 0
  constructor
  · unfold _convert_to_arena_format
    simp [hB]
  · have hN : msgs.length - 1 < msgs.length := by omega
    cases hm : msgs[msgs.length - 1]? with
    | none =>
        exfalso
        rw [List.getElem?_eq_getElem hN] at hm
        exact Option.noConfusion hm
    | some m =>
        refine ⟨_, mkArenaTurn ids (get_model_id model) (ids 0) (msgs.length - 1) m,
          convert_messages_getElem?_last ids model modality msgs, ?_, rfl, rfl, ?_⟩
        · rw [convert_messages_getElem?_lt ids model modality msgs _ hN, hm]
          rfl
        · have h1 : msgs.length - 1 + 1 = msgs.length := by omega
          show (if 0 < msgs.length then [ids msgs.length] else []) =
            [ids (msgs.length - 1 + 1)]
          rw [h1, if_pos (by omega)]

/-- Claim C2 witness: the singleton message list. -/
theorem claim2_turns_witness :
    (_convert_to_arena_format (fun n => toString n) "gpt-4"
        [{ role := "user", content := MsgContent.str "hi" }] "chat").messages.length
        = 2 ∧
    ∃ t p,
      (_convert_to_arena_format (fun n => toString n) "gpt-4"
          [{ role := "user", content := MsgContent.str "hi" }] "chat").messages[1]?
          = some t ∧
      (_convert_to_arena_format (fun n => toString n) "gpt-4"
          [{ role := "user", content := MsgContent.str "hi" }] "chat").messages[0]?
          = some p ∧
      t.role = "assistant" ∧ t.content = "" ∧ t.parentMessageIds = [p.id] :=
  claim2_turns (fun n => toString n) "gpt-4" "chat"
    [{ role := "user", content := MsgContent.str "hi" }] (by decide)

/-- Every turn built from an input message has a non-system role. -/
theorem role_buildArenaTurns (ids : Nat → String) (mid eid : String)
    (msgs : List Message) : ∀ (i : Nat) (t : ArenaMessage),
    t ∈ buildArenaTurns ids mid eid i msgs → t.role ≠ "system" := by
  induction msgs with
  | nil => intro i t ht; simp [buildArenaTurns] at ht
  | cons m rest ih =>
      intro i t ht
      simp only [buildArenaTurns, List.mem_cons] at ht
      rcases ht with rfl | ht
      · show (if m.role = "system" then "user" else m.role) ≠ "system"
        by_cases hm : m.role = "system"
        · simp [hm]
        · simp [hm]
      · exact ih (i + 1) t ht

/-- Claim C6: an input message with role "system" yields a turn with role
"user", every other role is copied unchanged, and no turn produced by the
translator has role "system". -/
theorem claim6_roles (ids : Nat → String) (model modality : String)
    (msgs : List Message) :
    (∀ (i : Nat) (m : Message), msgs[i]? = some m →
      ∃ t, (_convert_to_arena_format ids model msgs modality).messages[i]?
              = some t ∧
        t.role = (if m.role = "system" then "user" else m.role)) ∧
    (∀ t ∈ (_convert_to_arena_format ids model msgs modality).messages,
      t.role ≠ "system") := by
  constructor
  · intro i m hm
    have hi : i < msgs.length := by
      by_contra hge
      rw [List.getElem?_eq_none (by omega)] at hm
      exact Option.noConfusion hm
    refine ⟨mkArenaTurn ids (get_model_id model) (ids 0) i m, ?_, rfl⟩
    rw [convert_messages_getElem?_lt ids model modality msgs i hi, hm]
    rfl
  · intro t ht
    unfold _convert_to_arena_format at ht
    simp only [List.mem_append, List.mem_singleton] at ht
    rcases ht with ht | rfl
    · exact role_buildArenaTurns ids (get_model_id model) (ids 0) msgs 0 t ht
    · show "assistant" ≠ "system"
      decide

/-- Claim C6 witness: a system message is rewritten to user and the built
session holds no system turn. -/
theorem claim6_roles_witness :
    ∃ t, (_convert_to_arena_format (fun n => toString n) "gpt-4"
        [{ role := "system", content := MsgContent.str "x" }] "chat").messages[0]?
        = some t ∧
      t.role = (if ("system" : String) = "system" then "user" else "system") :=
  (claim6_roles (fun n => toString n) "gpt-4" "chat"
    [{ role := "system", content := MsgContent.str "x" }]).1 0
    { role := "system", content := MsgContent.str "x" } rfl

/-- Claim C7: a message whose content is an array of typed parts yields a
turn whose content is the newline-separated concatenation of the text of
the parts tagged as text, in order; non-text parts contribute nothing, and
an array with no text parts yields the empty string. -/
theorem claim7_multimodal (ids : Nat → String) (model modality : String)
    (msgs : List Message) (i : Nat) (m : Message) (ps : List ContentPart)
    (hm : msgs[i]? = some m) (hc : m.content = MsgContent.parts ps) :
    ∃ t, (_convert_to_arena_format ids model msgs modality).messages[i]?
            = some t ∧
      t.content = String.intercalate "\n" (ps.filterMap partTextOf) ∧
      (ps.filterMap partTextOf = [] → t.content = "") := by
  have hi : i < msgs.length := by
    by_contra hge
    rw [List.getElem?_eq_none (by omega)] at hm
    exact Option.noConfusion hm
  refine ⟨mkArenaTurn ids (get_model_id model) (ids 0) i m, ?_, ?_, ?_⟩
  · rw [convert_messages_getElem?_lt ids model modality msgs i hi, hm]
    rfl
  · show flattenContent m.content = _
    rw [hc]
    rfl
  · intro hnil
    show flattenContent m.content = ""
    rw [hc]
    show String.intercalate "\n" (ps.filterMap partTextOf) = ""
    rw [hnil]
    rfl

/-- Claim C7 witness: an array with one text part, one non-text part, one
text part lacking its text entry. -/
theorem claim7_multimodal_witness :
    ∃ t, (_convert_to_arena_format (fun n => toString n) "gpt-4"
        [{ role := "user"
         , content := MsgContent.parts
            [ContentPart.textP (some "a"), ContentPart.nonText,
             ContentPart.textP none] }] "chat").messages[0]? = some t ∧
      t.content = String.intercalate "\n"
        (([ContentPart.textP (some "a"), ContentPart.nonText,
           ContentPart.textP none].filterMap partTextOf)) ∧
      ([ContentPart.textP (some "a"), ContentPart.nonText,
        ContentPart.textP none].filterMap partTextOf = [] → t.content = "") :=
  claim7_multimodal (fun n => toString n) "gpt-4" "chat" _ 0 _ _ rfl rfl

/-! ### Identifier-erased skeletons (claim C9) -/

/-- The non-identifier fields of a turn: everything except its own id, its
parent references and the owning session id. -/
structure TurnSkeleton where
  role : String
  content : String
  experimental_attachments : List String
  participantPosition : String
  modelId : Option String
  status : String
  failureReason : Option String
  deriving DecidableEq

/-- Erase the freshly generated identifiers from a turn. -/
def turnSkeleton (t : ArenaMessage) : TurnSkeleton :=
  { role := t.role
  , content := t.content
  , experimental_attachments := t.experimental_attachments
  , participantPosition := t.participantPosition
  , modelId := t.modelId
  , status := t.status
  , failureReason := t.failureReason }

/-- The non-identifier fields of an evaluation session: everything except
the session id and the user/assistant anchor ids, with turns erased the
same way. -/
structure SessionSkeleton where
  mode : String
  modelAId : String
  modality : String
  turns : List TurnSkeleton
  deriving DecidableEq

/-- Erase the freshly generated identifiers from a session payload. -/
def sessionSkeleton (r : ArenaRequest) : SessionSkeleton :=
  { mode := r.mode
  , modelAId := r.modelAId
  , modality := r.modality
  , turns := r.messages.map turnSkeleton }

/-- The skeleton of a built turn does not depend on the id supply, the
session id, or the index. -/
theorem map_turnSkeleton_buildArenaTurns (ids : Nat → String)
    (mid eid : String) (msgs : List Message) : ∀ i : Nat,
    (buildArenaTurns ids mid eid i msgs).map turnSkeleton =
      msgs.map (fun m =>
        { role := if m.role = "system" then "user" else m.role
        , content := flattenContent m.content
        , experimental_attachments := []
        , participantPosition := "a"
        , modelId := if m.role = "assistant" then some mid else none
        , status := "pending"
        , failureReason := none }) := by
  induction msgs with
  | nil => intro i; rfl
  | cons m rest ih =>
      intro i
      simp only [buildArenaTurns, List.map_cons, ih (i + 1)]
      rfl

/-- Claim C9: translating the same request with two different id supplies
produces payloads that are structurally identical in every field except
the freshly generated identifiers (session id, turn ids, and the
parent/anchor fields that reference them). -/
theorem claim9_idempotence (ids1 ids2 : Nat → String)
    (model modality : String) (msgs : List Message) :
    sessionSkeleton (_convert_to_arena_format ids1 model msgs modality) =
      sessionSkeleton (_convert_to_arena_format ids2 model msgs modality) := by
  unfold _convert_to_arena_format sessionSkeleton
  simp only [List.map_append, map_turnSkeleton_buildArenaTurns]
  rfl

/-- Claim C10: with an empty messages list the translator produces exactly
one turn, the appended assistant turn with empty content and an empty
parent list, and sets userMessageId to that assistant turn id. -/
theorem claim10_empty_messages (ids : Nat → String)
    (model modality : String) :
    (_convert_to_arena_format ids model [] modality).messages =
      [ { id := ids 1
        , role := "assistant"
        , content := ""
        , experimental_attachments := []
        , parentMessageIds := []
        , participantPosition := "a"
        , modelId := some (get_model_id model)
        , evaluationSessionId := ids 0
        , status := "pending"
        , failureReason := none } ] ∧
    (_convert_to_arena_format ids model [] modality).userMessageId = ids 1 ∧
    (_convert_to_arena_format ids model [] modality).modelAMessageId = ids 1 ∧
    (_convert_to_arena_format ids model [] modality).messages.map
        ArenaMessage.id =
      [(_convert_to_arena_format ids model [] modality).userMessageId] :=
  ⟨rfl, rfl, rfl, rfl⟩

/-! ### Stream-translator claims -/

/-- Claim C3: on the input lines `data: a0:"Hi"`, `data: ae:`,
`data: [DONE]` the stream translator emits, in order, exactly one chunk
with delta content "Hi", delta role assistant and null finish reason, then
exactly one chunk with empty delta and finish reason "stop", then the
literal `[DONE]` terminator, and nothing after it. -/
theorem claim3_stream_sequence (response_id model : String) (now : Nat) :
    streamArenaLines response_id model now
        ["data: a0:\"Hi\"", "data: ae:", "data: [DONE]"] =
      [ SSEOut.chunk
          { id := response_id
          , object := "chat.completion.chunk"
          , created := now
          , model := model
          , choices :=
              [ { index := 0
                , delta := { content := some "Hi", role := some "assistant" }
                , finish_reason := none } ] }
      , SSEOut.chunk
          { id := response_id
          , object := "chat.completion.chunk"
          , created := now
          , model := model
          , choices :=
              [ { index := 0
                , delta := { content := none, role := none }
                , finish_reason := some "stop" } ] }
      , SSEOut.done ] := by
  rfl

/-- Claim C4 (counterexample): on the five-character text "aaaaa" the
token estimator returns 1 while max(1, ceil(len/4)) = max(1, ceil(5/4))
is 2, so the estimator is not the ceiling form the claim states. -/
theorem claim4_counterexample :
    _estimate_tokens "aaaaa" = 1 ∧
    max 1 (("aaaaa".length + 3) / 4) = 2 ∧
    _estimate_tokens "aaaaa" ≠ max 1 (("aaaaa".length + 3) / 4) := by
  decide

/-- Claim C4 (amended): for every text string the token estimator returns
max(1, floor(len/4)) where len is the character length; in particular for
text of length 0 it returns 1, not 0, and the estimate is always at
least 1. -/
theorem claim4_amended :
    (∀ text : String, _estimate_tokens text = max 1 (text.length / 4)) ∧
    _estimate_tokens "" = 1 ∧
    (∀ text : String, 1 ≤ _estimate_tokens text) :=
  ⟨fun _ => rfl, by decide, fun _ => le_max_left _ _⟩

/-- A payload with no colon, or with a first segment other than a0, ae,
ad, is classified to no chunk. -/
theorem process_none_of_unrecognized (d response_id model : String)
    (now : Nat)
    (h : splitAtColon d.data = none ∨
      ∃ p b, splitAtColon d.data = some (p, b) ∧
        String.mk p ≠ "a0" ∧ String.mk p ≠ "ae" ∧ String.mk p ≠ "ad") :
    _process_arena_sse_data d response_id model now = none := by
  rcases h with h | ⟨p, b, hs, h0, he, hd⟩
  · simp [_process_arena_sse_data, h]
  · simp [_process_arena_sse_data, hs, h0, he, hd]

/-- Claim C8: a stream line whose payload has an unrecognized first
segment, or no colon separator, or which does not start with `data: `,
emits no chunk and does not terminate the stream; the remaining lines are
processed exactly as if the line were absent. -/
theorem claim8_ignored_line (response_id model : String) (now : Nat)
    (line : String) (rest : List String)
    (h : pyStartsWith line "data: " = false ∨
      (pyDrop line 6 ≠ "[DONE]" ∧
        (splitAtColon (pyDrop line 6).data = none ∨
          ∃ p b, splitAtColon (pyDrop line 6).data = some (p, b) ∧
            String.mk p ≠ "a0" ∧ String.mk p ≠ "ae" ∧ String.mk p ≠ "ad"))) :
    streamArenaLines response_id model now (line :: rest) =
      streamArenaLines response_id model now rest := by
  rcases h with h | ⟨hne, hcls⟩
  · simp [streamArenaLines, h]
  · by_cases hs : pyStartsWith line "data: "
    · simp [streamArenaLines, hs, hne,
        process_none_of_unrecognized (pyDrop line 6) response_id model now hcls]
    · simp [streamArenaLines, hs]

/-- Claim C8 witness: the line `data: zz:garbage` is dropped and the
following `[DONE]` line still terminates the stream. -/
theorem claim8_ignored_line_witness :
    streamArenaLines "chatcmpl-0" "m" 0 ["data: zz:garbage", "data: [DONE]"] =
      streamArenaLines "chatcmpl-0" "m" 0 ["data: [DONE]"] :=
  claim8_ignored_line "chatcmpl-0" "m" 0 "data: zz:garbage" ["data: [DONE]"]
    (Or.inr ⟨by decide,
      Or.inr ⟨"zz".data, "garbage".data, by decide, by decide, by decide,
        by decide⟩⟩)

/-- Claim C5: a streaming chat completion whose session construction
fails (unsupported model) or whose transport call fails emits exactly one
synthetic error chunk whose delta content is "Error: " followed by the
exception message and whose finish reason is "stop", followed by the
literal `[DONE]` terminator, and nothing else. -/
theorem claim5_stream_failure (body : RequestBody) (ids : Nat → String)
    (now : Nat) (transport : ArenaRequest → Except String (List String)) :
    (is_model_supported body.model = false →
      (stream_chat_completion body ids now transport).1 =
        [ SSEOut.chunk (_create_error_chunk
            ("Unsupported model: " ++ optModelStr body.model) now)
        , SSEOut.done ]) ∧
    (∀ m e, body.model = some m → is_model_supported (some m) = true →
      transport (_convert_to_arena_format ids m (body.messages.getD []) "chat")
          = Except.error e →
      (stream_chat_completion body ids now transport).1 =
        [SSEOut.chunk (_create_error_chunk e now), SSEOut.done]) ∧
    (∀ msg, (_create_error_chunk msg now).choices =
      [ { index := 0
        , delta :=
            { content := some ("Error: " ++ msg), role := some "assistant" }
        , finish_reason := some "stop" } ]) := by
  refine ⟨?_, ?_, fun msg => rfl⟩
  · intro h
    cases hb : body.model with
    | none => simp [stream_chat_completion, hb, optModelStr]
    | some m =>
        rw [hb] at h
        simp [stream_chat_completion, hb, h, optModelStr]
  · intro m e hb hsup htr
    simp only [stream_chat_completion, hb, hsup, if_true,
      _stream_arena_request, htr]

/-- Claim C5 witness: a supported model whose transport call fails with
message "boom". -/
theorem claim5_stream_failure_witness :
    (stream_chat_completion
        { model := some "gpt-4", messages := some [], stream := true }
        (fun n => toString n) 7 (fun _ => Except.error "boom")).1 =
      [SSEOut.chunk (_create_error_chunk "boom" 7), SSEOut.done] :=
  (claim5_stream_failure
      { model := some "gpt-4", messages := some [], stream := true }
      (fun n => toString n) 7 (fun _ => Except.error "boom")).2.1
    "gpt-4" "boom" rfl (by decide) rfl

/-- A concrete chat-completions body whose model name is outside the
registry (not an alias, not a supported id). -/
def unsupportedBody : RequestBody :=
  { model := some "totally-unsupported-model"
  , messages := some []
  , stream := false }

/-- Endpoint outcome on `unsupportedBody` with a healthy transport. -/
def unsupportedOutcome : HandlerOutcome :=
  chat_completions unsupportedBody (fun n => toString n) 0
    (fun _ => Except.ok { content := some "hi" })
    (fun _ => Except.ok ["data: [DONE]"]) "[]"

/-- Claim C1 (counterexample): a non-streaming request whose model is
unsupported issues no outbound provider call, but the endpoint answers
500, not a 4xx status: the ValueError raised by the client reaches the
generic exception handler of main.py. -/
theorem claim1_counterexample :
    is_model_supported unsupportedBody.model = false ∧
    unsupportedOutcome.providerCalled = false ∧
    responseStatus unsupportedOutcome.response = 500 ∧
    ¬ is4xxResponse unsupportedOutcome.response := by
  decide

/-- Claim C1 (amended): for every chat-completions request whose model is
unsupported, no outbound provider call is issued; a request missing the
model field gets 400 missing_model, a request missing a list-valued
messages field gets 400 invalid_messages, and a request passing field
validation gets the 500 internal-error envelope when non-streaming, or a
200 SSE stream holding exactly one synthetic error chunk and the
terminator when streaming. -/
theorem claim1_unsupported_model (body : RequestBody) (ids : Nat → String)
    (now : Nat) (unary : ArenaRequest → Except String ArenaResponse)
    (streamTr : ArenaRequest → Except String (List String))
    (prompt_text : String)
    (h : is_model_supported body.model = false) :
    (chat_completions body ids now unary streamTr prompt_text).providerCalled
        = false ∧
    (body.model = none →
      (chat_completions body ids now unary streamTr prompt_text).response =
        HandlerResponse.jsonError 400 missingModelError) ∧
    (∀ m, body.model = some m → body.messages = none →
      (chat_completions body ids now unary streamTr prompt_text).response =
        HandlerResponse.jsonError 400 invalidMessagesError) ∧
    (∀ m msgs, body.model = some m → body.messages = some msgs →
      body.stream = false →
      (chat_completions body ids now unary streamTr prompt_text).response =
        HandlerResponse.jsonError 500 internalServerError) ∧
    (∀ m msgs, body.model = some m → body.messages = some msgs →
      body.stream = true →
      (chat_completions body ids now unary streamTr prompt_text).response =
        HandlerResponse.sse
          [ SSEOut.chunk
              (_create_error_chunk ("Unsupported model: " ++ m) now)
          , SSEOut.done ]) := by
  refine ⟨?_, ?_, ?_, ?_, ?_⟩
  · cases hb : body.model with
    | none => simp [chat_completions, hb]
    | some m =>
        rw [hb] at h
        cases hmsg : body.messages with
        | none => simp [chat_completions, hb, hmsg]
        | some msgs =>
            cases hstr : body.stream
            · simp [chat_completions, hb, hmsg, hstr, chat_completion, h]
            · simp [chat_completions, hb, hmsg, hstr,
                stream_chat_completion, h]
  · intro hm
    simp [chat_completions, hm]
  · intro m hb hmsg
    simp [chat_completions, hb, hmsg]
  · intro m msgs hb hmsg hstr
    rw [hb] at h
    simp [chat_completions, hb, hmsg, hstr, chat_completion, h]
  · intro m msgs hb hmsg hstr
    rw [hb] at h
    simp [chat_completions, hb, hmsg, hstr, stream_chat_completion, h]

/-- Claim C1 witness: the concrete unsupported request is answered with
the 500 envelope and never reaches the provider. -/
theorem claim1_unsupported_model_witness :
    unsupportedOutcome.providerCalled = false ∧
    unsupportedOutcome.response =
      HandlerResponse.jsonError 500 internalServerError := by
  have h := claim1_unsupported_model unsupportedBody (fun n => toString n) 0
    (fun _ => Except.ok { content := some "hi" })
    (fun _ => Except.ok ["data: [DONE]"]) "[]" (by decide)
  exact ⟨h.1, h.2.2.2.1 "totally-unsupported-model" [] rfl rfl rfl⟩

end OpenRouterAlt
